import Mathlib

/-!
Shallow embedding of the Template & Settings management core of the
amazon-smart-label extension (JavaScript), together with proofs of the
spec claims about it.

Conventions of the embedding:
* JS numbers are modelled as rationals (`ℚ`); `NaN` does not arise in the
  verified paths.
* A possibly-absent (or `undefined`/`null`) JS property is an `Option`.
* JS object spread `{...a, ...b}` over records with a fixed field set is a
  field-wise right-biased merge; over open string-keyed objects it is a
  key-wise merge on association lists.
* A JS method that may `throw` is a function into `Except`.
* Asynchronous calls are serialized (event-loop semantics), so methods are
  plain state transformers; `chrome.storage.sync` is part of the state.
* Event emission is returned as an explicit list of events where a claim
  depends on it.
-/

/-- JS truthiness of an optional string: `undefined`, `null` and the empty
string are falsy. -/
def truthyStr : Option String → Bool
  | some s => s ≠ ""
  | none => false

/-- JS truthiness of an optional number: `undefined`, `null` and `0` are
falsy. -/
def truthyNum : Option ℚ → Bool
  | some q => q ≠ 0
  | none => false

/-- JS `a || b` on an optional string with a string fallback. -/
def jsOrStr (a : Option String) (b : String) : String :=
  if truthyStr a then a.getD b else b

/-- JS `a || b` on two optional numbers. -/
def jsOrNum (a : Option ℚ) (b : Option ℚ) : Option ℚ :=
  if truthyNum a then a else b

/-- Per-field element specification of a template
(`{x, y, width?, height?, fontSize?, align?, bold?, maxLength?, maxWidth?}`). -/
structure ElementSpec where
  x : Option ℚ := none
  y : Option ℚ := none
  width : Option ℚ := none
  height : Option ℚ := none
  fontSize : Option ℚ := none
  align : Option String := none
  bold : Option Bool := none
  maxLength : Option ℚ := none
  maxWidth : Option ℚ := none
deriving DecidableEq

/-- The `elements` map of a template, with its six known field names. -/
structure Elements where
  barcode : Option ElementSpec := none
  fnsku : Option ElementSpec := none
  sku : Option ElementSpec := none
  title : Option ElementSpec := none
  image : Option ElementSpec := none
  condition : Option ElementSpec := none
deriving DecidableEq

/-- The `contentInclusion` mask of a template (note the plural `images`). -/
structure ContentInclusion where
  barcode : Option Bool := none
  fnsku : Option Bool := none
  sku : Option Bool := none
  title : Option Bool := none
  images : Option Bool := none
  condition : Option Bool := none
deriving DecidableEq

/-- A `conditionSettings` object (`{enabled, text, position}`). -/
structure CondSettings where
  enabled : Option Bool := none
  text : Option String := none
  position : Option String := none
deriving DecidableEq

/-- A template object, as both caller-supplied template data and stored
template (JS is duck-typed; every property may be absent). -/
structure TemplateData where
  id : Option String := none
  name : Option String := none
  baseName : Option String := none
  userCreated : Option Bool := none
  width : Option ℚ := none
  height : Option ℚ := none
  units : Option String := none
  orientation : Option String := none
  elements : Option Elements := none
  contentInclusion : Option ContentInclusion := none
  conditionSettings : Option CondSettings := none
  createdAt : Option String := none
  updatedAt : Option String := none
deriving DecidableEq

/-- JS object spread `{...a, ...b}` on two template objects: every property
present on `b` wins, otherwise `a`'s property survives. -/
def TemplateData.spread (a b : TemplateData) : TemplateData where
  id := b.id.orElse fun _ => a.id
  name := b.name.orElse fun _ => a.name
  baseName := b.baseName.orElse fun _ => a.baseName
  userCreated := b.userCreated.orElse fun _ => a.userCreated
  width := b.width.orElse fun _ => a.width
  height := b.height.orElse fun _ => a.height
  units := b.units.orElse fun _ => a.units
  orientation := b.orientation.orElse fun _ => a.orientation
  elements := b.elements.orElse fun _ => a.elements
  contentInclusion := b.contentInclusion.orElse fun _ => a.contentInclusion
  conditionSettings := b.conditionSettings.orElse fun _ => a.conditionSettings
  createdAt := b.createdAt.orElse fun _ => a.createdAt
  updatedAt := b.updatedAt.orElse fun _ => a.updatedAt

/-- Result object of `TemplateManager.validateTemplate`. -/
structure Validation where
  isValid : Bool
  errors : List String
  warnings : List String
deriving DecidableEq

/-- Errors thrown by the template manager: a validation failure carrying the
collected messages, the not-found-or-immutable rejection, or a raw JS
`TypeError` (see `validateTemplate`). -/
inductive TMError where
  | validationFailed (errors : List String)
  | notFoundOrImmutable (msg : String)
  | jsTypeError
deriving DecidableEq

/-- Errors of the per-element shape checks of `validateTemplate`, for one
named element entry (`needsWH`: barcode/image; `needsFS`: fnsku/sku/title). -/
def elementEntryErrors (elName : String) (needsWH needsFS : Bool)
    (e : ElementSpec) : List String :=
  (match e.x with
    | some q => if q < 0 then [("Element " ++ elName ++ " x position must be a non-negative number")] else []
    | none => [("Element " ++ elName ++ " x position must be a non-negative number")]) ++
  (match e.y with
    | some q => if q < 0 then [("Element " ++ elName ++ " y position must be a non-negative number")] else []
    | none => [("Element " ++ elName ++ " y position must be a non-negative number")]) ++
  (if needsWH then
    (match e.width with
      | some q => if q ≤ 0 then [("Element " ++ elName ++ " width must be a positive number")] else []
      | none => [("Element " ++ elName ++ " width must be a positive number")]) ++
    (match e.height with
      | some q => if q ≤ 0 then [("Element " ++ elName ++ " height must be a positive number")] else []
      | none => [("Element " ++ elName ++ " height must be a positive number")])
  else []) ++
  (if needsFS then
    (match e.fontSize with
      | some q => if q ≤ 0 then [("Element " ++ elName ++ " fontSize must be a positive number")] else []
      | none => [("Element " ++ elName ++ " fontSize must be a positive number")])
  else [])

/-- The element-level part of `validateTemplate` (iteration over
`Object.entries(template.elements)`, in the fixed field order of the
embedding). -/
def elementsErrors (els : Elements) : List String :=
  (if els.barcode.isNone ∧ els.fnsku.isNone then
    ["Template must include at least barcode or FNSKU element"]
  else []) ++
  (match els.barcode with
    | some e => elementEntryErrors "barcode" true false e
    | none => []) ++
  (match els.fnsku with
    | some e => elementEntryErrors "fnsku" false true e
    | none => []) ++
  (match els.sku with
    | some e => elementEntryErrors "sku" false true e
    | none => []) ++
  (match els.title with
    | some e => elementEntryErrors "title" false true e
    | none => []) ++
  (match els.image with
    | some e => elementEntryErrors "image" true false e
    | none => []) ++
  (match els.condition with
    | some e => elementEntryErrors "condition" false false e
    | none => [])

/-- A whitespace character in the sense of the JS `trim` used by the name
check (the characters that can occur in template names here). -/
def jsWhitespace (c : Char) : Bool :=
  c = ' ' ∨ c = '\t' ∨ c = '\n' ∨ c = '\r'

/-- The name check of `validateTemplate` (`!name || typeof name !== 'string'
|| name.trim().length === 0`): the trimmed name is empty exactly when every
character is whitespace. -/
def nameErrors (t : TemplateData) : List String :=
  match t.name with
  | some s => if s.data.all jsWhitespace then ["Template name is required"] else []
  | none => ["Template name is required"]

/-- The width check of `validateTemplate`. -/
def widthErrors (t : TemplateData) : List String :=
  match t.width with
  | some w => if w ≤ 0 then ["Template width must be a positive number"] else []
  | none => ["Template width must be a positive number"]

/-- The height check of `validateTemplate`. -/
def heightErrors (t : TemplateData) : List String :=
  match t.height with
  | some h => if h ≤ 0 then ["Template height must be a positive number"] else []
  | none => ["Template height must be a positive number"]

/-- The orientation check of `validateTemplate`. -/
def orientErrors (t : TemplateData) : List String :=
  match t.orientation with
  | some o =>
    if o = "portrait" ∨ o = "landscape" then []
    else ["Template orientation must be portrait or landscape"]
  | none => ["Template orientation must be portrait or landscape"]

/-- The elements check of `validateTemplate`. -/
def structErrors (t : TemplateData) : List String :=
  match t.elements with
  | some els => elementsErrors els
  | none => ["Template elements are required"]

/-- The contentInclusion check of `validateTemplate`. -/
def ciErrors (t : TemplateData) : List String :=
  match t.contentInclusion with
  | some _ => []
  | none => ["Template contentInclusion is required"]

/-- All error messages collected by `validateTemplate`, in source order. -/
def allErrors (t : TemplateData) : List String :=
  nameErrors t ++ widthErrors t ++ heightErrors t ++ orientErrors t ++
  structErrors t ++ ciErrors t

/-- The dimension warning of `validateTemplate`. -/
def dimWarnings (t : TemplateData) : List String :=
  if ((match t.width with | some w => decide (w > 300) | none => false) ||
      (match t.height with | some h => decide (h > 300) | none => false)) then
    ["Large template dimensions may cause printing issues"]
  else []

/-- `TemplateManager.validateTemplate`.  Faithful to the source, including
its final-line JS `TypeError`: after collecting all errors and the dimension
warning, the source evaluates `template.name.length > 50` unconditionally,
which throws a `TypeError` when `name` is absent (reading `length` of
`undefined`); that crash is the `Except.error` case.  (The source sets
`isValid := false` exactly when it pushes an error, so `isValid` equals
emptiness of the collected error list.) -/
def validateTemplate (t : TemplateData) : Except Unit Validation :=
  match t.name with
  | none => Except.error ()
  | some n =>
    Except.ok
      { isValid := (allErrors t).isEmpty, errors := allErrors t,
        warnings := dimWarnings t ++
          (if n.length > 50 then ["Template name is very long"] else []) }

/-- Whether `validateTemplate` returns a result with `isValid` (the guard
both `createTemplate` and `updateTemplate` test). -/
def payloadAccepted (data : TemplateData) : Bool :=
  match validateTemplate data with
  | Except.ok v => v.isValid
  | Except.error _ => false

/-- Key update on a JS object modelled as an association list: replace in
place when the key exists, append otherwise. -/
def setKey {α : Type} (k : String) (v : α) :
    List (String × α) → List (String × α)
  | [] => [(k, v)]
  | (k', v') :: rest => if k' = k then (k, v) :: rest else (k', v') :: setKey k v rest

/-- Key deletion on a JS object modelled as an association list. -/
def removeKey {α : Type} (k : String) :
    List (String × α) → List (String × α)
  | [] => []
  | (k', v') :: rest => if k' = k then rest else (k', v') :: removeKey k rest

/-- State of a `TemplateManager` instance: its built-in constants, its
in-memory user templates, and the `fnsku_user_templates` key of
`chrome.storage.sync`. -/
structure TemplateStore where
  builtInTemplates : List (String × TemplateData)
  userTemplates : List (String × TemplateData)
  storedUserTemplates : List (String × TemplateData)
deriving DecidableEq

/-- `TemplateManager.saveUserTemplates`: persist the in-memory user-template
object under `fnsku_user_templates`. -/
def saveUserTemplates (st : TemplateStore) : TemplateStore :=
  { st with storedUserTemplates := st.userTemplates }

/-- `TemplateManager.getTemplate`: built-ins are checked first, then user
templates. -/
def getTemplate (st : TemplateStore) (templateId : String) : Option TemplateData :=
  match st.builtInTemplates.lookup templateId with
  | some t => some t
  | none => st.userTemplates.lookup templateId

/-- `TemplateManager.isBuiltInTemplate`. -/
def isBuiltInTemplate (st : TemplateStore) (templateId : String) : Bool :=
  (st.builtInTemplates.lookup templateId).isSome

/-- `TemplateManager.createTemplate`.  `freshId` stands for the generated
`user_<Date.now()>_<random>` id and `now` for `new Date().toISOString()`.
Note the source builds `{ id, userCreated: true, createdAt, updatedAt,
...templateData }`, i.e. it spreads the caller data AFTER the four
store-assigned fields. -/
def createTemplate (freshId now : String) (data : TemplateData)
    (st : TemplateStore) : Except TMError TemplateData × TemplateStore :=
  match validateTemplate data with
  | Except.error _ => (Except.error TMError.jsTypeError, st)
  | Except.ok v =>
    if v.isValid then
      let base : TemplateData :=
        { id := some freshId, userCreated := some true,
          createdAt := some now, updatedAt := some now }
      let template := TemplateData.spread base data
      let st' := saveUserTemplates
        { st with userTemplates := setKey freshId template st.userTemplates }
      (Except.ok template, st')
    else
      (Except.error (TMError.validationFailed v.errors), st)

/-- `TemplateManager.updateTemplate`.  Fails when `templateId` is not a key
of the user-template object; otherwise validates the payload, merges it over
the stored template and forces `id`, `userCreated` and `updatedAt` after the
merge. -/
def updateTemplate (now : String) (templateId : String) (data : TemplateData)
    (st : TemplateStore) : Except TMError TemplateData × TemplateStore :=
  match st.userTemplates.lookup templateId with
  | none =>
    (Except.error (TMError.notFoundOrImmutable "Template not found or cannot be modified"), st)
  | some old =>
    match validateTemplate data with
    | Except.error _ => (Except.error TMError.jsTypeError, st)
    | Except.ok v =>
      if v.isValid then
        let merged := TemplateData.spread old data
        let updated := { merged with id := some templateId,
                                     userCreated := some true,
                                     updatedAt := some now }
        let st' := saveUserTemplates
          { st with userTemplates := setKey templateId updated st.userTemplates }
        (Except.ok updated, st')
      else
        (Except.error (TMError.validationFailed v.errors), st)

/-- `TemplateManager.deleteTemplate`. -/
def deleteTemplate (templateId : String) (st : TemplateStore) :
    Except TMError Bool × TemplateStore :=
  match st.userTemplates.lookup templateId with
  | none =>
    (Except.error (TMError.notFoundOrImmutable "Template not found or cannot be deleted"), st)
  | some _ =>
    let st' := saveUserTemplates
      { st with userTemplates := removeKey templateId st.userTemplates }
    (Except.ok true, st')

/-- The built-in `thermal_57x32` template constant. -/
def thermalTemplate : TemplateData :=
  { id := some "thermal_57x32", name := some "Thermal", baseName := some "Thermal",
      userCreated := some false, width := some 57, height := some 32,
      units := some "mm", orientation := some "landscape",
      elements := some
        { barcode := some { x := some 4, y := some 2, width := some 49, height := some 12 },
          fnsku := some { x := some 28.5, y := some 17, fontSize := some 8,
                          align := some "center", bold := some false },
          sku := some { x := some 28.5, y := some 22, fontSize := some 11,
                        align := some "center", bold := some true },
          title := some { x := some 28.5, y := some 26, fontSize := some 6,
                          align := some "center", maxLength := some 50 } },
      contentInclusion := some
        { barcode := some true, fnsku := some true, sku := some true,
          title := some true, images := some false },
      createdAt := some "2025-01-01T00:00:00.000Z",
      updatedAt := some "2025-01-01T00:00:00.000Z" }

/-- The built-in `thermal_57x32_minimal` template constant. -/
def thermalMinimalTemplate : TemplateData :=
  { id := some "thermal_57x32_minimal", name := some "Thermal Minimal",
      baseName := some "Thermal Minimal",
      userCreated := some false, width := some 57, height := some 32,
      units := some "mm", orientation := some "landscape",
      elements := some
        { barcode := some { x := some 4, y := some 4, width := some 49, height := some 16 },
          fnsku := some { x := some 28.5, y := some 24, fontSize := some 10,
                          align := some "center", bold := some true } },
      contentInclusion := some
        { barcode := some true, fnsku := some true, sku := some false,
          title := some false, images := some false },
      createdAt := some "2025-01-01T00:00:00.000Z",
      updatedAt := some "2025-01-01T00:00:00.000Z" }

/-- The built-in `shipping_4x6` template constant. -/
def shippingTemplate : TemplateData :=
  { id := some "shipping_4x6", name := some "Shipping", baseName := some "Shipping",
      userCreated := some false, width := some 4, height := some 6,
      units := some "in", orientation := some "portrait",
      elements := some
        { barcode := some { x := some 10, y := some 20, width := some 81.6, height := some 20 },
          fnsku := some { x := some 50.8, y := some 50, fontSize := some 12,
                          align := some "center", bold := some false },
          sku := some { x := some 50.8, y := some 70, fontSize := some 16,
                        align := some "center", bold := some true },
          title := some { x := some 50.8, y := some 90, fontSize := some 10,
                          align := some "center", maxLength := some 80 },
          image := some { x := some 10, y := some 100, width := some 30, height := some 30 } },
      contentInclusion := some
        { barcode := some true, fnsku := some true, sku := some true,
          title := some true, images := some true },
      createdAt := some "2025-01-01T00:00:00.000Z",
      updatedAt := some "2025-01-01T00:00:00.000Z" }

/-- The three built-in templates seeded in the `TemplateManager`
constructor. -/
def defaultBuiltIns : List (String × TemplateData) :=
  [("thermal_57x32", thermalTemplate),
   ("thermal_57x32_minimal", thermalMinimalTemplate),
   ("shipping_4x6", shippingTemplate)]

/-- A freshly constructed `TemplateManager` with an empty user-template
store. -/
def initialTemplateStore : TemplateStore :=
  { builtInTemplates := defaultBuiltIns, userTemplates := [],
    storedUserTemplates := [] }

/-- A JS value as stored in the open `globalSettings` object.  Strict
equality `===` on primitives is value equality; on objects it is reference
identity, modelled by an identity token. -/
inductive JsVal where
  | s : String → JsVal
  | n : ℚ → JsVal
  | b : Bool → JsVal
  | ref : Nat → JsVal
deriving DecidableEq

/-- `SettingsManager.hasSettingsChanges`: first compares the number of keys
of the two objects, then strict-compares the value of every key of the new
object against the old object.  (JS objects have no duplicate keys, so the
key count of a well-formed association list is its length.) -/
def hasSettingsChanges (oldSettings newSettings : List (String × JsVal)) : Bool :=
  if oldSettings.length ≠ newSettings.length then true
  else newSettings.any fun kv => decide (oldSettings.lookup kv.1 ≠ some kv.2)

/-- JS object spread `{...old, ...new}` on open string-keyed objects: keys of
`old` keep their place (with the new value when overridden) and novel keys of
`new` are appended in order. -/
def jsSpread (oldSettings newSettings : List (String × JsVal)) :
    List (String × JsVal) :=
  (oldSettings.map fun kv =>
    match newSettings.lookup kv.1 with
    | some v => (kv.1, v)
    | none => kv) ++
  newSettings.filter fun kv => (oldSettings.lookup kv.1).isNone

/-- The in-memory `this.settings` object of `SettingsManager`. -/
structure SettingsRec where
  selectedTemplateId : String
  globalSettings : List (String × JsVal)
  lastUpdated : String
deriving DecidableEq

/-- The legacy `fnskuLabelSettings` persisted shape. -/
structure LegacyLabelSettings where
  templateId : Option String := none
  barcodeFormat : Option String := none
  autoExtract : Option Bool := none
  autoOpenTabs : Option Bool := none
  debugMode : Option Bool := none
deriving DecidableEq

/-- The `labelSettings` member of the legacy `extensionSettings` shape. -/
structure LegacyExtLabel where
  template : Option String := none
deriving DecidableEq

/-- The legacy `extensionSettings` persisted shape. -/
structure LegacyExtSettings where
  labelSettings : Option LegacyExtLabel := none
deriving DecidableEq

/-- The `chrome.storage.sync` keys the settings manager touches:
`fnsku_extension_settings` (unified), `fnskuLabelSettings` and
`extensionSettings` (legacy). -/
structure SettingsStorage where
  unified : Option SettingsRec := none
  legacyLabel : Option LegacyLabelSettings := none
  legacyExt : Option LegacyExtSettings := none
deriving DecidableEq

/-- State of a `SettingsManager` instance.  `saveTimeoutSet` models the
`this.saveTimeout` field being non-null; `timerPending` models whether the
scheduled debounce timer has not yet fired (the event loop's view).  The two
differ exactly because the timer callback never resets `this.saveTimeout`. -/
structure SMState where
  settings : SettingsRec
  saveTimeoutSet : Bool
  timerPending : Bool
  saving : Bool
  storage : SettingsStorage
deriving DecidableEq

/-- Events emitted by `SettingsManager`. -/
inductive SMEvent where
  | templateSelected (id : String)
  | settingsChanged
  | globalSettingsChanged
  | settingChanged (key : String)
  | settingsSaving
  | settingsSaved
  | settingsSaveError
  | settingsReset
  | inited
deriving DecidableEq

/-- The compiled-in default `globalSettings` object (constructor of
`SettingsManager`), in its JS key-insertion order. -/
def defaultGlobalSettings : List (String × JsVal) :=
  [("barcodeFormat", JsVal.s "CODE128"),
   ("autoExtract", JsVal.b true),
   ("autoOpenTabs", JsVal.b false),
   ("debugMode", JsVal.b false),
   ("lastSelectedTab", JsVal.s "downloads")]

/-- The compiled-in default settings object. -/
def defaultSettingsRec (now : String) : SettingsRec :=
  { selectedTemplateId := "thermal_57x32",
    globalSettings := defaultGlobalSettings,
    lastUpdated := now }

/-- `SettingsManager.saveSettings`.  Guarded by the `saving` flag (an early
return when a write is in flight).  `persistOk` models whether the backend
write succeeds; the returned `Bool` is `false` exactly when the method
throws (after its `finally` has reset `saving`). -/
def saveSettings (persistOk : Bool) (st : SMState) :
    SMState × List SMEvent × Bool :=
  if st.saving then (st, [], true)
  else if persistOk then
    ({ st with storage := { st.storage with unified := some st.settings },
               saving := false },
     [SMEvent.settingsSaved], true)
  else
    ({ st with saving := false }, [SMEvent.settingsSaveError], false)

/-- `SettingsManager.debouncedSave`: clear any pending timer, schedule a new
one (a single-timer model), store its handle in `this.saveTimeout`, and emit
`settingsSaving`. -/
def debouncedSave (st : SMState) : SMState × List SMEvent :=
  ({ st with saveTimeoutSet := true, timerPending := true },
   [SMEvent.settingsSaving])

/-- Expiry of the debounce timer: the callback runs `saveSettings` (errors
are caught and logged).  Faithful to the source, the callback does NOT reset
the `this.saveTimeout` field, so `saveTimeoutSet` is left untouched. -/
def timerFire (persistOk : Bool) (st : SMState) : SMState × List SMEvent :=
  if st.timerPending then
    let st1 := { st with timerPending := false }
    let r := saveSettings persistOk st1
    (r.1, r.2.1)
  else (st, [])

/-- `SettingsManager.updateGlobalSettings`. -/
def updateGlobalSettings (now : String) (newSettings : List (String × JsVal))
    (st : SMState) : SMState × List SMEvent :=
  if hasSettingsChanges st.settings.globalSettings newSettings then
    let gs := jsSpread st.settings.globalSettings newSettings
    let st1 := { st with settings :=
      { st.settings with globalSettings := gs, lastUpdated := now } }
    let r := debouncedSave st1
    (r.1, [SMEvent.globalSettingsChanged, SMEvent.settingsChanged] ++ r.2)
  else (st, [])

/-- `SettingsManager.isSaving`: `this.saving || this.saveTimeout !== null`. -/
def isSaving (st : SMState) : Bool :=
  st.saving || st.saveTimeoutSet

/-- `SettingsManager.migrateOldSettings`: map each found legacy field onto
the current settings, and when anything was migrated persist the unified
object and then delete the legacy keys; a failed persist (a throw inside the
outer `try`) skips the deletion. -/
def migrateOldSettings (now : String) (persistOk : Bool) (st : SMState) : SMState :=
  let step1 : SettingsRec × Bool :=
    match st.storage.legacyLabel with
    | none => (st.settings, false)
    | some old =>
      let s0 := st.settings
      let p1 : SettingsRec × Bool :=
        if truthyStr old.templateId then
          ({ s0 with selectedTemplateId := old.templateId.getD "" }, true)
        else (s0, false)
      let p2 : SettingsRec × Bool :=
        if truthyStr old.barcodeFormat then
          let gs := setKey "barcodeFormat" (JsVal.s (old.barcodeFormat.getD "")) p1.1.globalSettings
          ({ p1.1 with globalSettings := gs }, true)
        else p1
      let p3 : SettingsRec × Bool :=
        match old.autoExtract with
        | some v =>
          let gs := setKey "autoExtract" (JsVal.b v) p2.1.globalSettings
          ({ p2.1 with globalSettings := gs }, true)
        | none => p2
      let p4 : SettingsRec × Bool :=
        match old.autoOpenTabs with
        | some v =>
          let gs := setKey "autoOpenTabs" (JsVal.b v) p3.1.globalSettings
          ({ p3.1 with globalSettings := gs }, true)
        | none => p3
      match old.debugMode with
      | some v =>
        let gs := setKey "debugMode" (JsVal.b v) p4.1.globalSettings
        ({ p4.1 with globalSettings := gs }, true)
      | none => p4
  let step2 : SettingsRec × Bool :=
    match st.storage.legacyExt with
    | none => step1
    | some ext =>
      match ext.labelSettings with
      | none => step1
      | some ls =>
        if truthyStr ls.template then
          ({ step1.1 with selectedTemplateId := ls.template.getD "" }, true)
        else step1
  if step2.2 then
    let st1 := { st with settings := { step2.1 with lastUpdated := now } }
    let r := saveSettings persistOk st1
    if r.2.2 then
      { r.1 with storage := { r.1.storage with legacyLabel := none, legacyExt := none } }
    else r.1
  else { st with settings := step2.1 }

/-- `SettingsManager.loadSettings`: prefer the unified key (a full settings
object spread over the defaults), else attempt migration from the legacy
keys. -/
def loadSettings (now : String) (persistOk : Bool) (st : SMState) : SMState :=
  match st.storage.unified with
  | some u => { st with settings := u }
  | none => migrateOldSettings now persistOk st

/-- `SettingsManager` construction followed by `init` against a given
backend content: defaults, then `loadSettings` (which may migrate). -/
def initSettings (now : String) (persistOk : Bool)
    (storage : SettingsStorage) : SMState :=
  loadSettings now persistOk
    { settings := defaultSettingsRec now, saveTimeoutSet := false,
      timerPending := false, saving := false, storage := storage }

/-- A drawing instruction emitted onto the current PDF page (`doc.addImage`
or `doc.text` together with the font state set for it). -/
inductive DrawInstr where
  | image (raster : String) (fmt : String) (x y w h : ℚ)
  | text (value : String) (x y fontSize : ℚ) (align : String) (bold : Bool)
deriving DecidableEq

/-- A jsPDF document, as the list of its pages (reversed: current page
first).  A freshly constructed document has one empty page. -/
structure PdfDoc where
  rev : List (List DrawInstr)
deriving DecidableEq

/-- The pages of the document in order. -/
def PdfDoc.pages (d : PdfDoc) : List (List DrawInstr) := d.rev.reverse

/-- `new jsPDF(...)`: one empty page. -/
def newDoc : PdfDoc := ⟨[[]]⟩

/-- `doc.addPage()`. -/
def PdfDoc.addPage (d : PdfDoc) : PdfDoc := ⟨[] :: d.rev⟩

/-- Append instructions to the current page. -/
def PdfDoc.draw (d : PdfDoc) (instrs : List DrawInstr) : PdfDoc :=
  match d.rev with
  | [] => ⟨[instrs]⟩
  | h :: t => ⟨(h ++ instrs) :: t⟩

/-- A data record from the extractor
(`{sku, fnsku, asin?, title?, image?, condition?}`). -/
structure ProductData where
  sku : Option String := none
  fnsku : Option String := none
  asin : Option String := none
  title : Option String := none
  image : Option String := none
  condition : Option String := none
deriving DecidableEq

/-- The `fontSizeOverrides` object of the global settings. -/
structure FontSizeOverrides where
  fnsku : Option ℚ := none
  sku : Option ℚ := none
  title : Option ℚ := none
  condition : Option ℚ := none
deriving DecidableEq

/-- The fields of `globalSettings` that `PDFLabelGenerator.generateLabels`
reads (its structured view of the settings object). -/
structure GlobalCfgView where
  barcodeFormat : Option String := none
  fontSizeOverrides : Option FontSizeOverrides := none
  conditionSettings : Option CondSettings := none
  pdfDPI : Option ℚ := none
deriving DecidableEq

/-- The generator's view of `settingsManager.getSettings()`. -/
structure CurrentSettingsView where
  selectedTemplateId : Option String := none
  globalSettings : Option GlobalCfgView := none
deriving DecidableEq

/-- The `config.fontSize` object built by `generateLabels` (possibly
replaced wholesale by the `...settings` spread). -/
structure FontSizeCfg where
  fnsku : Option ℚ := none
  sku : Option ℚ := none
  title : Option ℚ := none
  condition : Option ℚ := none
deriving DecidableEq

/-- The `settings` argument of `generateLabels`; its keys are spread over
the computed config last, so each present key overrides the computed one. -/
structure GenSettings where
  templateId : Option String := none
  barcodeFormat : Option String := none
  contentInclusion : Option ContentInclusion := none
  fontSize : Option FontSizeCfg := none
  conditionSettings : Option CondSettings := none
deriving DecidableEq

/-- The generation config after defaults, computed fields and the
`...settings` spread (the fields `renderLabel` reads; the unused
`includeImage`/`margin` defaults are omitted). -/
structure GenConfig where
  barcodeFormat : String
  contentInclusion : ContentInclusion
  fontSize : FontSizeCfg
  conditionSettings : CondSettings
deriving DecidableEq

/-- Errors thrown by `PDFLabelGenerator.generateLabels`. -/
inductive GenError where
  | templateNotFound (id : String)
  | missingFnsku
deriving DecidableEq

/-- Result of a `generateLabels` call: the document plus the argument list
of every invocation of the barcode encoder collaborator during the call. -/
structure GenTrace where
  doc : PdfDoc
  encodeCalls : List (String × String × ℚ)
deriving DecidableEq

/-- JS `a || b || c` on numbers (`0` is falsy). -/
def jsOr3 (a b : Option ℚ) (c : ℚ) : ℚ :=
  if truthyNum a then a.getD 0 else if truthyNum b then b.getD 0 else c

/-- `PDFLabelGenerator.truncateText`: hard cut at `maxLength - 3` plus an
ellipsis marker when the text exceeds `maxLength`. -/
def truncateText (text : String) (maxLength : ℚ) : String :=
  if text = "" ∨ (text.length : ℚ) ≤ maxLength then text
  else text.take (maxLength - 3).floor.toNat ++ "..."

/-- `PDFLabelGenerator.renderText`: set bold/size, then scale the font down
proportionally when the measured width exceeds the element's `maxWidth`
(default 45), and emit the text instruction. -/
def renderTextInstr (measure : String → ℚ → ℚ) (text : String)
    (el : ElementSpec) : DrawInstr :=
  let size := el.fontSize.getD 0
  let w := measure text size
  let maxW := if truthyNum el.maxWidth then el.maxWidth.getD 0 else 45
  let size2 := if w > maxW then size * (maxW / w) else size
  DrawInstr.text text (el.x.getD 0) (el.y.getD 0) size2
    (jsOrStr el.align "left") (el.bold = some true)

/-- The barcode block of `renderLabel`. -/
def barcodeInstrs (els : Elements) (raster : String) (ci : ContentInclusion) :
    List DrawInstr :=
  match els.barcode with
  | some b =>
    if raster ≠ "" ∧ ci.barcode ≠ some false then
      [DrawInstr.image raster "PNG" (b.x.getD 0) (b.y.getD 0)
        (b.width.getD 0) (b.height.getD 0)]
    else []
  | none => []

/-- The FNSKU block of `renderLabel`. -/
def fnskuInstrs (measure : String → ℚ → ℚ) (els : Elements) (pd : ProductData)
    (config : GenConfig) : List DrawInstr :=
  match els.fnsku with
  | some e =>
    if config.contentInclusion.fnsku ≠ some false then
      let e' := if truthyNum config.fontSize.fnsku then
        { e with fontSize := config.fontSize.fnsku } else e
      [renderTextInstr measure (pd.fnsku.getD "") e']
    else []
  | none => []

/-- The SKU block of `renderLabel`. -/
def skuInstrs (measure : String → ℚ → ℚ) (els : Elements) (pd : ProductData)
    (config : GenConfig) : List DrawInstr :=
  match els.sku with
  | some e =>
    if truthyStr pd.sku ∧ config.contentInclusion.sku ≠ some false then
      let e' := if truthyNum config.fontSize.sku then
        { e with fontSize := config.fontSize.sku } else e
      [renderTextInstr measure ("SKU: " ++ pd.sku.getD "") e']
    else []
  | none => []

/-- The title block of `renderLabel` (condition prefix, then truncation). -/
def titleInstrs (measure : String → ℚ → ℚ) (els : Elements) (pd : ProductData)
    (config : GenConfig) : List DrawInstr :=
  match els.title with
  | some e =>
    if truthyStr pd.title ∧ config.contentInclusion.title ≠ some false then
      let e' := if truthyNum config.fontSize.title then
        { e with fontSize := config.fontSize.title } else e
      let cs := config.conditionSettings
      let title0 := pd.title.getD ""
      let titleText :=
        if cs.enabled ≠ some false ∧ cs.position = some "title-prefix" ∧
           config.contentInclusion.condition ≠ some false then
          (jsOrStr pd.condition (jsOrStr cs.text "NEW")) ++ " - " ++ title0
        else title0
      let cut := truncateText titleText
        (if truthyNum e.maxLength then e.maxLength.getD 0 else 50)
      [renderTextInstr measure cut e']
    else []
  | none => []

/-- The condition block of `renderLabel` (skipped when the position is
`title-prefix`; `bottom-right` overrides alignment and x). -/
def conditionInstrs (measure : String → ℚ → ℚ) (template : TemplateData)
    (els : Elements) (pd : ProductData) (config : GenConfig) : List DrawInstr :=
  match els.condition with
  | some e =>
    let cs := config.conditionSettings
    if config.contentInclusion.condition ≠ some false ∧ cs.enabled ≠ some false ∧
       cs.position ≠ some "title-prefix" then
      let e' := if truthyNum config.fontSize.condition then
        { e with fontSize := config.fontSize.condition } else e
      let condText := jsOrStr pd.condition (jsOrStr cs.text "NEW")
      let e'' := if cs.position = some "bottom-right" then
        { e' with align := some "right", x := some ((template.width.getD 0) - 2) }
        else e'
      [renderTextInstr measure condText e'']
    else []
  | none => []

/-- The product-image block of `renderLabel` (a failed load is skipped). -/
def imageInstrs (loadImg : String → Option String) (els : Elements)
    (pd : ProductData) (config : GenConfig) : List DrawInstr :=
  match els.image with
  | some e =>
    if config.contentInclusion.images = some true ∧ truthyStr pd.image then
      match loadImg (pd.image.getD "") with
      | some img =>
        [DrawInstr.image img "JPEG" (e.x.getD 0) (e.y.getD 0)
          (e.width.getD 0) (e.height.getD 0)]
      | none => []
    else []
  | none => []

/-- `PDFLabelGenerator.renderLabel`: the instructions of one label page.
(In `renderLabel` the source falls back from `config.contentInclusion` and
`config.conditionSettings` to the template's objects, but the config built
by `generateLabels` always carries both, so the fallbacks are dead on every
call path.) -/
def renderLabel (measure : String → ℚ → ℚ) (loadImg : String → Option String)
    (template : TemplateData) (pd : ProductData) (raster : String)
    (config : GenConfig) : List DrawInstr :=
  let els := template.elements.getD {}
  barcodeInstrs els raster config.contentInclusion ++
  fnskuInstrs measure els pd config ++
  skuInstrs measure els pd config ++
  titleInstrs measure els pd config ++
  conditionInstrs measure template els pd config ++
  imageInstrs loadImg els pd config

/-- The tail of the render loop: each remaining iteration adds a page and
draws the label on it (`if (i > 0) doc.addPage()` for `i ≥ 1`). -/
def renderLoop (page : List DrawInstr) : Nat → PdfDoc → PdfDoc
  | 0, d => d
  | k + 1, d => renderLoop page k (d.addPage.draw page)

/-- The whole render loop `for (let i = 0; i < quantity; i++)` on a fresh
document: iteration 0 draws on the initial page, later iterations add
pages; `n` is the number of iterations. -/
def renderAll (page : List DrawInstr) : Nat → PdfDoc
  | 0 => newDoc
  | k + 1 => renderLoop page k (newDoc.draw page)

/-- The template-id fallback chain of `generateLabels`:
`settings.templateId || currentSettings.selectedTemplateId || 'thermal_57x32'`. -/
def resolveTemplateId (settings : GenSettings) (cs : CurrentSettingsView) : String :=
  jsOrStr settings.templateId (jsOrStr cs.selectedTemplateId "thermal_57x32")

/-- `PDFLabelGenerator.generateLabels` (the template-manager-integrated
generator).  Collaborators are passed as functions: `encode` is the barcode
encoder (data, format, dpi ↦ raster data URL), `measure` the text-width
metric of the document, `loadImg` the image loader.  `quantity` is an
integer; the JS `for (let i = 0; i < quantity; i++)` runs `max quantity 0`
iterations.  No quantity validation is performed by the source. -/
def generateLabels (st : TemplateStore) (currentSettings : CurrentSettingsView)
    (encode : String → String → ℚ → String) (measure : String → ℚ → ℚ)
    (loadImg : String → Option String) (productData : ProductData)
    (quantity : ℤ) (settings : GenSettings) : Except GenError GenTrace :=
  let gs := currentSettings.globalSettings.getD {}
  let templateId := resolveTemplateId settings currentSettings
  match getTemplate st templateId with
  | none => Except.error (GenError.templateNotFound templateId)
  | some template =>
    if ¬ truthyStr productData.fnsku then
      Except.error GenError.missingFnsku
    else
      let gcs := gs.conditionSettings.getD {}
      let tcs := template.conditionSettings.getD {}
      let mergedCond : CondSettings :=
        { enabled := some (match gcs.enabled with
            | some e => e
            | none => tcs.enabled ≠ some false),
          text := some (jsOrStr gcs.text (jsOrStr tcs.text "NEW")),
          position := some (jsOrStr gcs.position (jsOrStr tcs.position "bottom-left")) }
      let fo := gs.fontSizeOverrides
      let els := template.elements
      let computedFS : FontSizeCfg :=
        { fnsku := some (jsOr3 (fo.bind (·.fnsku)) ((els.bind (·.fnsku)).bind (·.fontSize)) 8),
          sku := some (jsOr3 (fo.bind (·.sku)) ((els.bind (·.sku)).bind (·.fontSize)) 11),
          title := some (jsOr3 (fo.bind (·.title)) ((els.bind (·.title)).bind (·.fontSize)) 6),
          condition := some (jsOr3 (fo.bind (·.condition)) ((els.bind (·.condition)).bind (·.fontSize)) 5) }
      let computedCI : ContentInclusion := template.contentInclusion.getD
        { barcode := some true, fnsku := some true, sku := some true,
          title := some true, images := some false, condition := some true }
      let config : GenConfig :=
        { barcodeFormat := settings.barcodeFormat.getD (jsOrStr gs.barcodeFormat "CODE128"),
          contentInclusion := settings.contentInclusion.getD computedCI,
          fontSize := settings.fontSize.getD computedFS,
          conditionSettings := settings.conditionSettings.getD mergedCond }
      let pdfDPI := if truthyNum gs.pdfDPI then gs.pdfDPI.getD 0 else 300
      let fnskuVal := productData.fnsku.getD ""
      let raster := encode fnskuVal config.barcodeFormat pdfDPI
      let page := renderLabel measure loadImg template productData raster config
      let doc := renderAll page quantity.toNat
      Except.ok { doc := doc, encodeCalls := [(fnskuVal, config.barcodeFormat, pdfDPI)] }

/-- The invalidity precondition of the spec's validation property: width ≤ 0,
or height ≤ 0, or orientation outside the two allowed values, or no barcode
and no fnsku element (including the elements map being absent). -/
def claimInvalid (d : TemplateData) : Bool :=
  (match d.width with | some w => decide (w ≤ 0) | none => false) ||
  (match d.height with | some h => decide (h ≤ 0) | none => false) ||
  (match d.orientation with
    | some o => decide (o ≠ "portrait" ∧ o ≠ "landscape")
    | none => false) ||
  (match d.elements with
    | none => true
    | some els => els.barcode.isNone && els.fnsku.isNone)

/-- Template data with an invalid width and no name at all
(`name: undefined`). -/
def noNameBadWidthData : TemplateData := { width := some (-1) }

/-- Template data with a name but an invalid (negative) width and no
elements. -/
def namedBadWidthData : TemplateData := { name := some "Bad", width := some (-5) }

/-- A stored user template. -/
def sampleUserTemplate : TemplateData :=
  { id := some "user_1", name := some "Mine", baseName := some "Mine",
    userCreated := some true, width := some 57, height := some 32,
    units := some "mm", orientation := some "landscape",
    elements := some
      { barcode := some { x := some 4, y := some 2, width := some 49, height := some 12 } },
    contentInclusion := some {}, createdAt := some "t0", updatedAt := some "t0" }

/-- A template store holding one user template under the key `user_1`. -/
def storeWithUser : TemplateStore :=
  { builtInTemplates := defaultBuiltIns,
    userTemplates := [("user_1", sampleUserTemplate)],
    storedUserTemplates := [("user_1", sampleUserTemplate)] }

/-- A payload that passes validation but carries a foreign `id` and
`userCreated: false`. -/
def conflictingPayload : TemplateData :=
  { id := some "other_id", userCreated := some false, name := some "Renamed",
    width := some 40, height := some 30, orientation := some "landscape",
    elements := some
      { fnsku := some { x := some 1, y := some 2, fontSize := some 9 } },
    contentInclusion := some {} }

/-- A payload that passes validation and carries caller-supplied values for
all four store-owned fields (`id`, `userCreated`, `createdAt`,
`updatedAt`). -/
def callerOwnedFieldsData : TemplateData :=
  { id := some "caller_id", name := some "Leak", userCreated := some false,
    width := some 57, height := some 32, orientation := some "landscape",
    elements := some
      { barcode := some { x := some 4, y := some 2, width := some 49, height := some 12 } },
    contentInclusion := some {},
    createdAt := some "1999-01-01T00:00:00.000Z",
    updatedAt := some "1999-01-02T00:00:00.000Z" }

/-- A settings manager right after `init` on an empty backend: compiled-in
defaults, idle save machinery. -/
def smInitial : SMState :=
  { settings := defaultSettingsRec "t0", saveTimeoutSet := false,
    timerPending := false, saving := false, storage := {} }

/-- The state after one real `updateGlobalSettings` mutation followed by the
debounce timer firing and the scheduled write completing. -/
def afterDebouncedSaveFired : SMState :=
  (timerFire true (updateGlobalSettings "t1" [("debugMode", JsVal.b true)] smInitial).1).1

/-- A backend holding only the legacy `fnskuLabelSettings` object with a
template id. -/
def legacyOnlyStorage : SettingsStorage :=
  { legacyLabel := some { templateId := some "shipping_4x6" } }

/-- A constant barcode encoder collaborator. -/
def constEncode : String → String → ℚ → String := fun _ _ _ => "barcode_raster"

/-- A constant text-width metric. -/
def constMeasure : String → ℚ → ℚ := fun _ _ => 10

/-- An image loader that always fails. -/
def noImage : String → Option String := fun _ => none

/-- A complete data record. -/
def sampleRecord : ProductData :=
  { sku := some "SKU1", fnsku := some "X002HB9ZDL" }

/-- A data record without an fnsku. -/
def noFnskuRecord : ProductData := { sku := some "X" }

/-- Updating a key and then looking it up yields the new value. -/
theorem lookup_setKey {α : Type} (k : String) (v : α) :
    ∀ l : List (String × α), (setKey k v l).lookup k = some v := by
  intro l
  induction l with
  | nil => simp [setKey, List.lookup]
  | cons hd tl ih =>
    obtain ⟨k', v'⟩ := hd
    by_cases h : k' = k
    · subst h; simp [setKey, List.lookup]
    · have hbeq : (k == k') = false := by
        simp [beq_eq_false_iff_ne]
        exact fun he => h he.symm
      simp [setKey, h, List.lookup, ih, hbeq]

/-- With a present name, `validateTemplate` returns (no JS crash), and its
result is determined by the collected error list. -/
theorem validateTemplate_ok (t : TemplateData) (n : String) (h : t.name = some n) :
    validateTemplate t = Except.ok
      { isValid := (allErrors t).isEmpty, errors := allErrors t,
        warnings := dimWarnings t ++
          (if n.length > 50 then ["Template name is very long"] else []) } := by
  simp [validateTemplate, h]

/-- Any template data satisfying the claim's invalidity precondition yields a
non-empty collected error list. -/
theorem allErrors_ne_nil_of_claimInvalid (d : TemplateData)
    (h : claimInvalid d = true) : allErrors d ≠ [] := by
  intro hnil
  rw [allErrors] at hnil
  simp only [List.append_eq_nil] at hnil
  obtain ⟨⟨⟨⟨⟨hn, hw⟩, hh⟩, ho⟩, hs⟩, hc⟩ := hnil
  rw [claimInvalid] at h
  simp only [Bool.or_eq_true] at h
  rcases h with ((h | h) | h) | h
  · rcases hwo : d.width with _ | w
    · rw [hwo] at h; exact absurd h (by simp)
    · rw [hwo] at h
      have hle : w ≤ 0 := by simpa using h
      simp [widthErrors, hwo, hle] at hw
  · rcases hho : d.height with _ | ht
    · rw [hho] at h; exact absurd h (by simp)
    · rw [hho] at h
      have hle : ht ≤ 0 := by simpa using h
      simp [heightErrors, hho, hle] at hh
  · rcases hoo : d.orientation with _ | o
    · rw [hoo] at h; exact absurd h (by simp)
    · rw [hoo] at h
      have hno : ¬ (o = "portrait" ∨ o = "landscape") := by
        simp only [decide_eq_true_eq] at h
        rintro (h1 | h1) <;> simp [h1] at h
      simp [orientErrors, hoo, hno] at ho
  · rcases heo : d.elements with _ | els
    · simp [structErrors, heo] at hs
    · rw [heo] at h
      have hcore : els.barcode.isNone ∧ els.fnsku.isNone := by
        simpa [Bool.and_eq_true] using h
      simp [structErrors, heo, elementsErrors, hcore] at hs

/-- C1: for every built-in template id, `updateTemplate` and
`deleteTemplate` fail with the not-found-or-immutable error (built-in ids
never appear among the user-template keys, which is the guard both methods
test), and the store — built-in set, user set and persisted copy — is
returned unchanged. -/
theorem builtin_update_delete_immutable (st : TemplateStore) (b now : String)
    (data : TemplateData)
    (_hb : isBuiltInTemplate st b = true)
    (hu : st.userTemplates.lookup b = none) :
    updateTemplate now b data st =
      (Except.error (TMError.notFoundOrImmutable "Template not found or cannot be modified"), st) ∧
    deleteTemplate b st =
      (Except.error (TMError.notFoundOrImmutable "Template not found or cannot be deleted"), st) := by
  constructor
  · simp [updateTemplate, hu]
  · simp [deleteTemplate, hu]

/-- Witness for C1 at the built-in id `thermal_57x32` on a fresh store. -/
theorem builtin_update_delete_immutable_witness :
    updateTemplate "2025-06-02T00:00:00.000Z" "thermal_57x32" {} initialTemplateStore =
      (Except.error (TMError.notFoundOrImmutable "Template not found or cannot be modified"), initialTemplateStore) ∧
    deleteTemplate "thermal_57x32" initialTemplateStore =
      (Except.error (TMError.notFoundOrImmutable "Template not found or cannot be deleted"), initialTemplateStore) :=
  builtin_update_delete_immutable initialTemplateStore "thermal_57x32"
    "2025-06-02T00:00:00.000Z" {} (by rfl) (by rfl)

/-- C2 (code bug): `createTemplate` spreads the caller's data AFTER the
store-assigned fields, so a validation-passing payload that itself carries
`id`, `userCreated`, `createdAt` or `updatedAt` overrides all four: the
returned template is the caller's object verbatim — its id is the caller's
`caller_id` (not the fresh store-generated id `user_1748000000_abc`), its
`userCreated` is `false`, and both timestamps are the caller's, contradicting
the claim (and the immutability pattern `updateTemplate` applies
correctly). -/
theorem createTemplate_caller_fields_leak :
    (createTemplate "user_1748000000_abc" "2025-06-01T00:00:00.000Z"
        callerOwnedFieldsData initialTemplateStore).1 =
      Except.ok callerOwnedFieldsData ∧
    callerOwnedFieldsData.id = some "caller_id" ∧
    callerOwnedFieldsData.userCreated = some false ∧
    callerOwnedFieldsData.createdAt = some "1999-01-01T00:00:00.000Z" ∧
    callerOwnedFieldsData.updatedAt = some "1999-01-02T00:00:00.000Z" := by
  refine ⟨?_, rfl, rfl, rfl, rfl⟩
  rfl

/-- C3 counterexample: template data with `width = -1` (inside the claim's
precondition) but no `name` property makes `createTemplate` fail with a raw
JS `TypeError` (from `template.name.length` inside `validateTemplate`), not
with a `ValidationError` carrying messages; the store is unchanged. -/
theorem createTemplate_missing_name_typeError :
    claimInvalid noNameBadWidthData = true ∧
    createTemplate "user_1" "2025-06-01T00:00:00.000Z" noNameBadWidthData
        initialTemplateStore =
      (Except.error TMError.jsTypeError, initialTemplateStore) := by
  constructor
  · decide
  · rfl

/-- C3 (amended): for template data carrying a name (so that
`validateTemplate` returns instead of crashing) and satisfying the claim's
invalidity precondition, `createTemplate` fails with the validation error
carrying a non-empty message list and returns the store unchanged, and so
does `updateTemplate` on any existing user-template id. -/
theorem invalid_template_rejected_store_unchanged (st : TemplateStore)
    (freshId now tid : String) (d : TemplateData) (n : String)
    (hname : d.name = some n) (hinv : claimInvalid d = true)
    (hex : (st.userTemplates.lookup tid).isSome = true) :
    allErrors d ≠ [] ∧
    createTemplate freshId now d st =
      (Except.error (TMError.validationFailed (allErrors d)), st) ∧
    updateTemplate now tid d st =
      (Except.error (TMError.validationFailed (allErrors d)), st) := by
  have hne := allErrors_ne_nil_of_claimInvalid d hinv
  have hempty : (allErrors d).isEmpty = false := by
    cases h' : allErrors d with
    | nil => exact absurd h' hne
    | cons a l => rfl
  refine ⟨hne, ?_, ?_⟩
  · rw [createTemplate, validateTemplate_ok d n hname]
    simp [hempty]
  · obtain ⟨old, hold⟩ := Option.isSome_iff_exists.mp hex
    rw [updateTemplate, hold, validateTemplate_ok d n hname]
    simp [hempty]

/-- Witness for C3 (amended) at a named payload with negative width against
a store holding one user template. -/
theorem invalid_template_rejected_store_unchanged_witness :
    allErrors namedBadWidthData ≠ [] ∧
    createTemplate "user_9" "t1" namedBadWidthData storeWithUser =
      (Except.error (TMError.validationFailed (allErrors namedBadWidthData)), storeWithUser) ∧
    updateTemplate "t1" "user_1" namedBadWidthData storeWithUser =
      (Except.error (TMError.validationFailed (allErrors namedBadWidthData)), storeWithUser) :=
  invalid_template_rejected_store_unchanged storeWithUser "user_9" "t1" "user_1"
    namedBadWidthData "Bad" (by rfl) (by decide) (by rfl)

/-- C10: on an existing user template and a validation-passing payload,
`updateTemplate` returns and stores a template whose `id` equals the given
id and whose `userCreated` is `true`, because both fields are forced after
the merge of the payload. -/
theorem updateTemplate_forces_id_userCreated (st : TemplateStore)
    (tid now : String) (data old : TemplateData)
    (hu : st.userTemplates.lookup tid = some old)
    (hacc : payloadAccepted data = true) :
    ∃ upd, (updateTemplate now tid data st).1 = Except.ok upd ∧
      upd.id = some tid ∧ upd.userCreated = some true ∧
      (updateTemplate now tid data st).2.userTemplates.lookup tid = some upd := by
  rcases hv : validateTemplate data with e | v
  · rw [payloadAccepted, hv] at hacc
    exact absurd hacc (by simp)
  · have hval : v.isValid = true := by
      rw [payloadAccepted, hv] at hacc
      exact hacc
    refine ⟨{ TemplateData.spread old data with id := some tid, userCreated := some true, updatedAt := some now }, ?_, rfl, rfl, ?_⟩
    · rw [updateTemplate, hu, hv]
      simp [hval]
    · rw [updateTemplate, hu, hv]
      simp [hval, saveUserTemplates, lookup_setKey]

/-- Witness for C10: a payload carrying a foreign id and
`userCreated: false` still comes back with the stored id and
`userCreated = true`. -/
theorem updateTemplate_forces_id_userCreated_witness :
    ∃ upd, (updateTemplate "t1" "user_1" conflictingPayload storeWithUser).1 =
        Except.ok upd ∧
      upd.id = some "user_1" ∧ upd.userCreated = some true ∧
      (updateTemplate "t1" "user_1" conflictingPayload storeWithUser).2.userTemplates.lookup "user_1" =
        some upd :=
  updateTemplate_forces_id_userCreated storeWithUser "user_1" "t1"
    conflictingPayload sampleUserTemplate (by rfl) (by decide)

/-- C4 counterexample: a partial settings object with a single key whose
value is identical to the current `globalSettings` value for that key is NOT
a no-op: `hasSettingsChanges` reports a change because the key counts differ
(5 vs 1), so the call emits `globalSettingsChanged`, `settingsChanged` and
`settingsSaving`, restamps `lastUpdated` and schedules a debounced write —
and a second identical call emits all three events again. -/
theorem updateGlobalSettings_subset_identical_not_noop :
    defaultGlobalSettings.lookup "barcodeFormat" = some (JsVal.s "CODE128") ∧
    (updateGlobalSettings "t1" [("barcodeFormat", JsVal.s "CODE128")] smInitial).2 =
      [SMEvent.globalSettingsChanged, SMEvent.settingsChanged, SMEvent.settingsSaving] ∧
    (updateGlobalSettings "t1" [("barcodeFormat", JsVal.s "CODE128")] smInitial).1.settings.lastUpdated = "t1" ∧
    smInitial.settings.lastUpdated = "t0" ∧
    (updateGlobalSettings "t1" [("barcodeFormat", JsVal.s "CODE128")] smInitial).1.timerPending = true ∧
    (updateGlobalSettings "t2" [("barcodeFormat", JsVal.s "CODE128")]
        (updateGlobalSettings "t1" [("barcodeFormat", JsVal.s "CODE128")] smInitial).1).2 =
      [SMEvent.globalSettingsChanged, SMEvent.settingsChanged, SMEvent.settingsSaving] := by
  decide

/-- C4 (amended): `updateGlobalSettings` is a true no-op — no event, no
state change (including `lastUpdated`), no scheduled write — exactly on
partial objects whose key count equals the current `globalSettings` key
count and whose every key maps to a value strictly equal to the current one
(the shallow diff of `hasSettingsChanges`); a partial with fewer keys takes
the change path even when all its values are identical. -/
theorem updateGlobalSettings_noop_when_no_changes (now : String)
    (newSettings : List (String × JsVal)) (st : SMState)
    (hlen : newSettings.length = st.settings.globalSettings.length)
    (hvals : ∀ kv ∈ newSettings, st.settings.globalSettings.lookup kv.1 = some kv.2) :
    updateGlobalSettings now newSettings st = (st, []) := by
  have hch : hasSettingsChanges st.settings.globalSettings newSettings = false := by
    rw [hasSettingsChanges, if_neg (by omega)]
    rw [List.any_eq_false]
    intro kv hkv
    simp [hvals kv hkv]
  simp [updateGlobalSettings, hch]

/-- Witness for C4 (amended): re-sending the full identical settings object
is a no-op. -/
theorem updateGlobalSettings_noop_when_no_changes_witness :
    updateGlobalSettings "t1" defaultGlobalSettings smInitial = (smInitial, []) :=
  updateGlobalSettings_noop_when_no_changes "t1" defaultGlobalSettings smInitial
    (by rfl) (by decide)

/-- C5 (code bug): after one mutation the debounce timer fires and the
scheduled write completes — no write is in flight (`saving = false`) and no
debounced save is pending (`timerPending = false`, and the write reached the
backend) — yet `isSaving()` still returns `true`, because the timer callback
never resets the `saveTimeout` field it tests. -/
theorem isSaving_true_after_debounced_save_completes :
    afterDebouncedSaveFired.timerPending = false ∧
    afterDebouncedSaveFired.saving = false ∧
    afterDebouncedSaveFired.storage.unified.isSome = true ∧
    isSaving afterDebouncedSaveFired = true := by
  decide

/-- C8: with a backend holding a legacy `fnskuLabelSettings` object carrying
a template id and no unified key, initialization migrates: the in-memory
`selectedTemplateId` is the legacy id, the migrated unified object has been
persisted with that id, and both legacy keys have been deleted; with a
failing persist the legacy key is NOT deleted (deletion happens only after
the successful persist). -/
theorem settings_migration_legacy_templateId (now tid : String)
    (leg : LegacyLabelSettings) (storage : SettingsStorage)
    (hu : storage.unified = none)
    (hleg : storage.legacyLabel = some leg)
    (htid : leg.templateId = some tid) (hne : tid ≠ "")
    (hext : storage.legacyExt = none) :
    (initSettings now true storage).settings.selectedTemplateId = tid ∧
    ((initSettings now true storage).storage.unified.map fun u => u.selectedTemplateId) =
      some tid ∧
    (initSettings now true storage).storage.legacyLabel = none ∧
    (initSettings now true storage).storage.legacyExt = none ∧
    (initSettings now false storage).storage.legacyLabel = some leg := by
  obtain ⟨ltid, lbf, lae, lot, ldm⟩ := leg
  simp only at htid
  subst htid
  cases lbf with
  | none =>
    cases lae <;> cases lot <;> cases ldm <;>
      simp [initSettings, loadSettings, migrateOldSettings, saveSettings,
        defaultSettingsRec, hu, hleg, hext, truthyStr, hne, setKey]
  | some bf =>
    by_cases hbf : bf = "" <;> cases lae <;> cases lot <;> cases ldm <;>
      simp [initSettings, loadSettings, migrateOldSettings, saveSettings,
        defaultSettingsRec, hu, hleg, hext, truthyStr, hne, setKey, hbf]

/-- Witness for C8 against a backend that holds only the legacy object. -/
theorem settings_migration_legacy_templateId_witness :
    (initSettings "t1" true legacyOnlyStorage).settings.selectedTemplateId = "shipping_4x6" ∧
    ((initSettings "t1" true legacyOnlyStorage).storage.unified.map fun u => u.selectedTemplateId) =
      some "shipping_4x6" ∧
    (initSettings "t1" true legacyOnlyStorage).storage.legacyLabel = none ∧
    (initSettings "t1" true legacyOnlyStorage).storage.legacyExt = none ∧
    (initSettings "t1" false legacyOnlyStorage).storage.legacyLabel =
      some { templateId := some "shipping_4x6" } :=
  settings_migration_legacy_templateId "t1" "shipping_4x6"
    { templateId := some "shipping_4x6" } legacyOnlyStorage
    (by rfl) (by rfl) (by rfl) (by decide) (by rfl)

/-- Each tail iteration of the render loop prepends one copy of the page. -/
theorem renderLoop_rev (page : List DrawInstr) :
    ∀ (k : Nat) (d : PdfDoc), (renderLoop page k d).rev = List.replicate k page ++ d.rev := by
  intro k
  induction k with
  | zero => intro d; simp [renderLoop]
  | succ n ih =>
    intro d
    rw [renderLoop, ih]
    have hdr : (d.addPage.draw page).rev = page :: d.rev := by
      rcases d with ⟨rev⟩
      simp [PdfDoc.addPage, PdfDoc.draw]
    rw [hdr, List.replicate_succ']
    simp

/-- A render loop with `k + 1` iterations produces exactly `k + 1` copies of
the page. -/
theorem renderAll_pages_succ (page : List DrawInstr) (k : Nat) :
    (renderAll page (k + 1)).pages = List.replicate (k + 1) page := by
  rw [renderAll, PdfDoc.pages, renderLoop_rev]
  have hnd : (newDoc.draw page).rev = [page] := by
    simp [newDoc, PdfDoc.draw]
  rw [hnd, ← List.replicate_succ']
  exact List.reverse_replicate (k + 1) page

/-- `renderText` always emits a text instruction, never an image one. -/
theorem renderTextInstr_ne_image (m : String → ℚ → ℚ) (t : String)
    (el : ElementSpec) (r fmt : String) (x y w h : ℚ) :
    renderTextInstr m t el ≠ DrawInstr.image r fmt x y w h := by
  simp [renderTextInstr]

/-- Every PNG image instruction of a rendered label page carries exactly the
barcode raster handed to `renderLabel` (text blocks emit text instructions
and the product-image block emits a JPEG instruction). -/
theorem renderLabel_png_raster (m : String → ℚ → ℚ) (li : String → Option String)
    (template : TemplateData) (pd : ProductData) (raster : String)
    (config : GenConfig) :
    ∀ i ∈ renderLabel m li template pd raster config,
      ∀ r x y w h, i = DrawInstr.image r "PNG" x y w h → r = raster := by
  intro i hi r x y w h heq
  subst heq
  rw [renderLabel] at hi
  simp only [List.mem_append] at hi
  rcases hi with ((((h1 | h2) | h3) | h4) | h5) | h6
  · rcases hb : (template.elements.getD {}).barcode with _ | b
    · simp [barcodeInstrs, hb] at h1
    · simp only [barcodeInstrs, hb] at h1
      split at h1
      · simp at h1
        exact h1.1
      · simp at h1
  · rcases hf : (template.elements.getD {}).fnsku with _ | e
    · simp [fnskuInstrs, hf] at h2
    · simp only [fnskuInstrs, hf] at h2
      split at h2 <;> simp [renderTextInstr] at h2
  · rcases hsk : (template.elements.getD {}).sku with _ | e
    · simp [skuInstrs, hsk] at h3
    · simp only [skuInstrs, hsk] at h3
      split at h3 <;> simp [renderTextInstr] at h3
  · rcases hti : (template.elements.getD {}).title with _ | e
    · simp [titleInstrs, hti] at h4
    · simp only [titleInstrs, hti] at h4
      split at h4 <;> simp [renderTextInstr] at h4
  · rcases hco : (template.elements.getD {}).condition with _ | e
    · simp [conditionInstrs, hco] at h5
    · simp only [conditionInstrs, hco] at h5
      split at h5 <;> simp [renderTextInstr] at h5
  · rcases him : (template.elements.getD {}).image with _ | e
    · simp [imageInstrs, him] at h6
    · simp only [imageInstrs, him] at h6
      split at h6
      · rcases hld : li (pd.image.getD "") with _ | img <;> rw [hld] at h6 <;> simp at h6
      · simp at h6

/-- C6: on a record with a truthy fnsku, a resolvable template id and a
positive quantity, `generateLabels` succeeds with exactly `quantity` pages,
invokes the barcode encoder exactly once for the whole call, and every PNG
image instruction on every page (the barcode draw) references the raster
produced by that single encode. -/
theorem generateLabels_pages_and_single_encode (st : TemplateStore)
    (cs : CurrentSettingsView) (encode : String → String → ℚ → String)
    (measure : String → ℚ → ℚ) (loadImg : String → Option String)
    (pd : ProductData) (q : ℤ) (settings : GenSettings) (tpl : TemplateData)
    (htpl : getTemplate st (resolveTemplateId settings cs) = some tpl)
    (hfn : truthyStr pd.fnsku = true) (hq : 0 < q) :
    ∃ trace fmt dpi,
      generateLabels st cs encode measure loadImg pd q settings = Except.ok trace ∧
      trace.encodeCalls = [(pd.fnsku.getD "", fmt, dpi)] ∧
      trace.doc.pages.length = q.toNat ∧
      ∀ p ∈ trace.doc.pages, ∀ i ∈ p, ∀ r x y w h,
        i = DrawInstr.image r "PNG" x y w h →
        r = encode (pd.fnsku.getD "") fmt dpi := by
  obtain ⟨k, hk⟩ : ∃ k, q.toNat = k + 1 := ⟨q.toNat - 1, by omega⟩
  simp only [generateLabels, htpl, hfn]
  refine ⟨_, _, _, rfl, rfl, ?_, ?_⟩
  · rw [hk, renderAll_pages_succ]
    simp
  · intro p hp i hi r x y w h heq
    rw [hk, renderAll_pages_succ] at hp
    have hpp := List.eq_of_mem_replicate hp
    subst hpp
    exact renderLabel_png_raster _ _ _ _ _ _ i hi r x y w h heq

/-- Witness for C6 at quantity 3 against the default store and settings. -/
theorem generateLabels_pages_and_single_encode_witness :
    ∃ trace fmt dpi,
      generateLabels initialTemplateStore {} constEncode constMeasure noImage
          sampleRecord 3 {} = Except.ok trace ∧
      trace.encodeCalls = [(sampleRecord.fnsku.getD "", fmt, dpi)] ∧
      trace.doc.pages.length = (3 : ℤ).toNat ∧
      ∀ p ∈ trace.doc.pages, ∀ i ∈ p, ∀ r x y w h,
        i = DrawInstr.image r "PNG" x y w h →
        r = constEncode (sampleRecord.fnsku.getD "") fmt dpi :=
  generateLabels_pages_and_single_encode initialTemplateStore {} constEncode
    constMeasure noImage sampleRecord 3 {} thermalTemplate (by rfl) (by rfl)
    (by decide)

/-- C7 counterexample: at quantity 0 (not a positive integer),
`generateLabels` does NOT fail with any error — it succeeds and returns a
document with one blank page (the loop body never runs), invoking the
encoder once; no `InvalidQuantity` check exists anywhere in the renderer. -/
theorem generateLabels_zero_quantity_succeeds :
    generateLabels initialTemplateStore {} constEncode constMeasure noImage
        sampleRecord 0 {} =
      Except.ok { doc := newDoc, encodeCalls := [("X002HB9ZDL", "CODE128", 300)] } := by
  rfl

/-- C7 (amended): the renderer performs no quantity validation at all: for
quantity ≤ 0 it succeeds with a document consisting of exactly one empty
page, and (per the C6 theorem) for positive quantity it renders that many
pages; it never throws an `InvalidQuantity` error. -/
theorem generateLabels_no_quantity_validation (st : TemplateStore)
    (cs : CurrentSettingsView) (encode : String → String → ℚ → String)
    (measure : String → ℚ → ℚ) (loadImg : String → Option String)
    (pd : ProductData) (q : ℤ) (settings : GenSettings) (tpl : TemplateData)
    (htpl : getTemplate st (resolveTemplateId settings cs) = some tpl)
    (hfn : truthyStr pd.fnsku = true) (hq : q ≤ 0) :
    ∃ trace,
      generateLabels st cs encode measure loadImg pd q settings = Except.ok trace ∧
      trace.doc.pages = [[]] := by
  have h0 : q.toNat = 0 := by omega
  simp only [generateLabels, htpl, hfn]
  refine ⟨_, rfl, ?_⟩
  rw [h0]
  rfl

/-- Witness for C7 (amended) at quantity −2. -/
theorem generateLabels_no_quantity_validation_witness :
    ∃ trace,
      generateLabels initialTemplateStore {} constEncode constMeasure noImage
          sampleRecord (-2) {} = Except.ok trace ∧
      trace.doc.pages = [[]] :=
  generateLabels_no_quantity_validation initialTemplateStore {} constEncode
    constMeasure noImage sampleRecord (-2) {} thermalTemplate (by rfl) (by rfl)
    (by decide)

/-- C9: whenever the record's fnsku is absent or empty, `generateLabels`
fails with the missing-required-field error before any rendering — the call
returns no document, hence no pages and no draw instructions — for every
resolvable template and every quantity. -/
theorem generateLabels_missing_fnsku_fails (st : TemplateStore)
    (cs : CurrentSettingsView) (encode : String → String → ℚ → String)
    (measure : String → ℚ → ℚ) (loadImg : String → Option String)
    (pd : ProductData) (q : ℤ) (settings : GenSettings) (tpl : TemplateData)
    (htpl : getTemplate st (resolveTemplateId settings cs) = some tpl)
    (hfn : truthyStr pd.fnsku = false) :
    generateLabels st cs encode measure loadImg pd q settings =
      Except.error GenError.missingFnsku := by
  simp [generateLabels, htpl, hfn]

/-- Witness for C9 on a record carrying only a sku. -/
theorem generateLabels_missing_fnsku_fails_witness :
    generateLabels initialTemplateStore {} constEncode constMeasure noImage
        noFnskuRecord 1 {} =
      Except.error GenError.missingFnsku :=
  generateLabels_missing_fnsku_fails initialTemplateStore {} constEncode
    constMeasure noImage noFnskuRecord 1 {} thermalTemplate (by rfl) (by rfl)
